import Mathlib

/-!
Formal model of the sora2api proxy/token services
(`src/services/free_proxy_manager.py`, `src/services/proxy_manager.py`,
`src/services/token_manager.py`), with theorems settling the claims of the
natural-language specification against the code.

Conventions of the shallow embedding:
* Python floats (scores, timestamps, response times) are modelled as `ℚ`.
* Python `None` becomes `Option.none`; Python string truthiness (`if s:`)
  is modelled by `strTruthy` (present and non-empty).
* The proxy pool dict `url -> ProxyInfo` is an association list with
  Python-dict assignment semantics (`dictInsert` replaces in place,
  appends when absent).
* Network calls are oracles: the outcome of each outbound request is a
  parameter of the modelled function.
-/

/-- Python string truthiness for an optional string: truthy iff present and
non-empty. -/
def strTruthy : Option String → Bool
  | none => false
  | some s => !(s == "")

/-! ## ProxyInfo (free_proxy_manager.py, `ProxyInfo` dataclass) -/

/-- Proxy record with health tracking, translated from the `ProxyInfo`
dataclass. -/
structure ProxyInfo where
  url : String
  protocol : String
  ip : String
  port : Nat
  https : Bool
  anonymity : String
  score : ℚ
  country : String
  success_count : Nat
  failure_count : Nat
  last_used : Option ℚ
  last_success : Option ℚ
  last_failure : Option ℚ
  avg_response_time : ℚ
  is_healthy : Bool
deriving DecidableEq, Repr

/-- `ProxyInfo.health_score`, translated line by line from the source:
if never probed return the proxifly score, otherwise combine success rate
and a time penalty `min(1, avg/10) * 0.3`, as
`(success_rate * 0.7 + (1 - time_penalty) * 0.3) * 10`. -/
def ProxyInfo.health_score (p : ProxyInfo) : ℚ :=
  if p.success_count + p.failure_count = 0 then p.score
  else
    let total : ℚ := (p.success_count : ℚ) + (p.failure_count : ℚ)
    let success_rate : ℚ := (p.success_count : ℚ) / total
    let time_penalty : ℚ := min 1 (p.avg_response_time / 10) * (3 / 10)
    (success_rate * (7 / 10) + (1 - time_penalty) * (3 / 10)) * 10

/-- The health-score formula exactly as the spec words it:
`0.7 * successRate + 0.3 * (1 − min(1, avgResponseTimeSeconds/10))`,
scaled by 10, with the raw origin score for unprobed records. -/
def specHealthScore (p : ProxyInfo) : ℚ :=
  if p.success_count + p.failure_count = 0 then p.score
  else
    let total : ℚ := (p.success_count : ℚ) + (p.failure_count : ℚ)
    let successRate : ℚ := (p.success_count : ℚ) / total
    ((7 / 10) * successRate + (3 / 10) * (1 - min 1 (p.avg_response_time / 10))) * 10

/-- The spec formula amended to what the code computes: the inner time
penalty additionally carries the 0.3 weight, i.e.
`0.7 * successRate + 0.3 * (1 − 0.3 * min(1, avgResponseTimeSeconds/10))`,
scaled by 10. -/
def specHealthScoreAmended (p : ProxyInfo) : ℚ :=
  if p.success_count + p.failure_count = 0 then p.score
  else
    let total : ℚ := (p.success_count : ℚ) + (p.failure_count : ℚ)
    let successRate : ℚ := (p.success_count : ℚ) / total
    ((7 / 10) * successRate +
      (3 / 10) * (1 - (3 / 10) * min 1 (p.avg_response_time / 10))) * 10

/-- A concrete record with one success and average response time 10s:
the code gives score 9.1, the spec formula gives 7. -/
def cexProxyC1 : ProxyInfo :=
  { url := "socks5://1.2.3.4:1080", protocol := "socks5", ip := "1.2.3.4",
    port := 1080, https := false, anonymity := "elite", score := 1,
    country := "US", success_count := 1, failure_count := 0,
    last_used := none, last_success := none, last_failure := none,
    avg_response_time := 10, is_healthy := true }

/-- Claim C1 (counterexample): the spec's health-score formula does not match
the code. At a record with one success and a 10-second average response time
the code computes 9.1 while the spec's formula gives 7. -/
theorem C1_counterexample :
    ProxyInfo.health_score cexProxyC1 = 91 / 10 ∧
    specHealthScore cexProxyC1 = 7 ∧
    ProxyInfo.health_score cexProxyC1 ≠ specHealthScore cexProxyC1 := by
  have h1 : ProxyInfo.health_score cexProxyC1 = 91 / 10 := by
    simp only [ProxyInfo.health_score, cexProxyC1]
    norm_num
  have h2 : specHealthScore cexProxyC1 = 7 := by
    simp only [specHealthScore, cexProxyC1]
    norm_num
  refine ⟨h1, h2, ?_⟩
  rw [h1, h2]
  norm_num

/-- Claim C1 (amended): for every proxy record the health score equals the raw
origin score when the record has zero total probes, and otherwise equals
`(0.7 * successRate + 0.3 * (1 − 0.3 * min(1, avgResponseTimeSeconds/10))) * 10`
— the code weights the time penalty by 0.3 before the 30% combination. -/
theorem C1_health_score_amended (p : ProxyInfo) :
    ProxyInfo.health_score p = specHealthScoreAmended p := by
  unfold ProxyInfo.health_score specHealthScoreAmended
  split
  · rfl
  · ring_nf

/-! ## Proxy pool and health reporting (free_proxy_manager.py) -/

/-- The pool `self._proxies : Dict[str, ProxyInfo]`, as an association list
with Python-dict insertion-order semantics. -/
abbrev ProxyPool := List (String × ProxyInfo)

/-- `FreeProxyManager.FAILURE_THRESHOLD`. -/
def FAILURE_THRESHOLD : Nat := 3

/-- `FreeProxyManager.MIN_SCORE`. -/
def MIN_SCORE : ℚ := 1 / 2

/-- `FreeProxyManager.PREFERRED_ANONYMITY`. -/
def PREFERRED_ANONYMITY : List String := ["anonymous", "elite"]

/-- `FreeProxyManager.ALLOWED_PROTOCOLS`. -/
def ALLOWED_PROTOCOLS : List String := ["socks5"]

/-- Per-record effect of `FreeProxyManager.report_success`: bump the success
counter, stamp the times, mark healthy, and exponentially smooth the average
response time (first sample sets it directly). -/
def reportSuccessRecord (p : ProxyInfo) (now response_time : ℚ) : ProxyInfo :=
  let p1 := { p with
    success_count := p.success_count + 1,
    last_used := some now,
    last_success := some now,
    is_healthy := true }
  if p1.avg_response_time = 0 then
    { p1 with avg_response_time := response_time }
  else
    { p1 with avg_response_time :=
        p1.avg_response_time * (7 / 10) + response_time * (3 / 10) }

/-- `FreeProxyManager.report_success`: update the record stored under
`proxy_url`; a URL not in the pool is a no-op. -/
def report_success (pool : ProxyPool) (proxy_url : String) (now response_time : ℚ) :
    ProxyPool :=
  pool.map fun kv =>
    if kv.1 = proxy_url then (kv.1, reportSuccessRecord kv.2 now response_time) else kv

/-- Per-record effect of `FreeProxyManager.report_failure`: bump the failure
counter, stamp the times, and mark unhealthy iff the new failure count reaches
`FAILURE_THRESHOLD` and (no successes or failure ratio above 0.5). -/
def reportFailureRecord (p : ProxyInfo) (now : ℚ) : ProxyInfo :=
  let p1 := { p with
    failure_count := p.failure_count + 1,
    last_used := some now,
    last_failure := some now }
  if FAILURE_THRESHOLD ≤ p1.failure_count ∧
      (p1.success_count = 0 ∨
        (1 : ℚ) / 2 <
          (p1.failure_count : ℚ) / ((p1.success_count : ℚ) + (p1.failure_count : ℚ)))
  then { p1 with is_healthy := false }
  else p1

/-- `FreeProxyManager.report_failure`: update the record stored under
`proxy_url`; a URL not in the pool is a no-op. -/
def report_failure (pool : ProxyPool) (proxy_url : String) (now : ℚ) : ProxyPool :=
  pool.map fun kv =>
    if kv.1 = proxy_url then (kv.1, reportFailureRecord kv.2 now) else kv


/-- Claim C8: for a record in the pool, `report_failure` increments the failure
counter, stamps last-used/last-failure, and performs the `is_healthy := false`
assignment exactly when the new failure count is at least 3 and (zero successes
or failure ratio above 0.5); below the threshold a healthy record stays healthy,
an unhealthy record stays unhealthy, and only `report_success` sets the flag
back to true. -/
theorem C8_report_failure_transition (pool : ProxyPool) (url : String) (now : ℚ)
    (p : ProxyInfo) (hmem : (url, p) ∈ pool) :
    (url, reportFailureRecord p now) ∈ report_failure pool url now ∧
    reportFailureRecord p now =
      { p with
        failure_count := p.failure_count + 1,
        last_used := some now,
        last_failure := some now,
        is_healthy :=
          if FAILURE_THRESHOLD ≤ p.failure_count + 1 ∧
              (p.success_count = 0 ∨
                (1 : ℚ) / 2 <
                  ((p.failure_count : ℚ) + 1) /
                    ((p.success_count : ℚ) + ((p.failure_count : ℚ) + 1)))
          then false else p.is_healthy } ∧
    (∀ rt, (reportSuccessRecord p now rt).is_healthy = true) := by
  refine ⟨?_, ?_, ?_⟩
  · simpa [report_failure] using List.mem_map_of_mem
      (f := fun kv : String × ProxyInfo =>
        if kv.1 = url then (kv.1, reportFailureRecord kv.2 now) else kv) hmem
  · simp only [reportFailureRecord, Nat.cast_add, Nat.cast_one]
    split <;> rfl
  · intro rt
    simp only [reportSuccessRecord]
    split <;> rfl

/-- A record with two prior failures and no successes, used to witness C8. -/
def proxC8 : ProxyInfo :=
  { url := "socks5://9.9.9.9:1080", protocol := "socks5", ip := "9.9.9.9",
    port := 1080, https := false, anonymity := "elite", score := 1,
    country := "US", success_count := 0, failure_count := 2,
    last_used := none, last_success := none, last_failure := none,
    avg_response_time := 0, is_healthy := true }

/-- The singleton pool holding `proxC8`. -/
def poolC8 : ProxyPool := [("socks5://9.9.9.9:1080", proxC8)]

/-- Witness for C8: at a concrete record with 2 prior failures and no
successes, this failure pushes the count to 3 and the record is marked
unhealthy. -/
theorem C8_witness :
    (("socks5://9.9.9.9:1080", proxC8) ∈ poolC8) ∧
    (reportFailureRecord proxC8 50).failure_count = 3 ∧
    (reportFailureRecord proxC8 50).is_healthy = false := by
  have hmem : ("socks5://9.9.9.9:1080", proxC8) ∈ poolC8 := by
    simp [poolC8]
  have h := C8_report_failure_transition poolC8 "socks5://9.9.9.9:1080" 50 proxC8 hmem
  refine ⟨hmem, ?_, ?_⟩
  · rw [h.2.1]
    simp [proxC8]
  · rw [h.2.1]
    simp [proxC8, FAILURE_THRESHOLD]

/-! ## Health checking (free_proxy_manager.py, `health_check_proxy`) -/

/-- Outcome of the outbound probe request: a response with a status code and
a measured wall-clock elapsed time, or a transport exception. -/
inductive HttpOutcome where
  | resp (status : Nat) (elapsed : ℚ)
  | exc
deriving DecidableEq, Repr

/-- `FreeProxyManager.health_check_proxy`: a 200 response reports success with
the measured latency and yields true; any other status or any exception
reports failure and yields false. The returned pair is (result, updated pool);
the function is total, so no branch raises. -/
def health_check_proxy (pool : ProxyPool) (proxy_url : String) (now : ℚ)
    (outcome : HttpOutcome) : Bool × ProxyPool :=
  match outcome with
  | .resp status elapsed =>
      if status = 200 then (true, report_success pool proxy_url now elapsed)
      else (false, report_failure pool proxy_url now)
  | .exc => (false, report_failure pool proxy_url now)

/-- Claim C9: `health_check_proxy` never raises (it is a total function into
`Bool`); it returns true with a success report carrying the measured latency
exactly on a 200 response, and false with a failure report on any other status
or any transport exception. The last two conjuncts trace the effect down to
the pool record. -/
theorem C9_health_check_boundary (pool : ProxyPool) (proxy_url : String)
    (now : ℚ) (p : ProxyInfo) (outcome : HttpOutcome)
    (hmem : (proxy_url, p) ∈ pool) :
    ((health_check_proxy pool proxy_url now outcome).1 = true ↔
      ∃ elapsed, outcome = .resp 200 elapsed) ∧
    (∀ elapsed, health_check_proxy pool proxy_url now (.resp 200 elapsed) =
      (true, report_success pool proxy_url now elapsed)) ∧
    (∀ status elapsed, status ≠ 200 →
      health_check_proxy pool proxy_url now (.resp status elapsed) =
        (false, report_failure pool proxy_url now)) ∧
    (health_check_proxy pool proxy_url now .exc =
      (false, report_failure pool proxy_url now)) ∧
    (∀ elapsed, (proxy_url, reportSuccessRecord p now elapsed) ∈
      (health_check_proxy pool proxy_url now (.resp 200 elapsed)).2) ∧
    ((proxy_url, reportFailureRecord p now) ∈
      (health_check_proxy pool proxy_url now .exc).2) := by
  refine ⟨?_, ?_, ?_, ?_, ?_, ?_⟩
  · cases outcome with
    | resp status elapsed =>
        by_cases h : status = 200
        · subst h
          simp [health_check_proxy]
        · simp [health_check_proxy, h]
    | exc => simp [health_check_proxy]
  · intro elapsed
    simp [health_check_proxy]
  · intro status elapsed h
    simp [health_check_proxy, h]
  · simp [health_check_proxy]
  · intro elapsed
    simpa [health_check_proxy, report_success] using List.mem_map_of_mem
      (f := fun kv : String × ProxyInfo =>
        if kv.1 = proxy_url then (kv.1, reportSuccessRecord kv.2 now elapsed) else kv) hmem
  · simpa [health_check_proxy, report_failure] using List.mem_map_of_mem
      (f := fun kv : String × ProxyInfo =>
        if kv.1 = proxy_url then (kv.1, reportFailureRecord kv.2 now) else kv) hmem

/-- Witness for C9 at the concrete singleton pool `poolC8`: a 503 response
yields false and an exception yields false, while a 200 response yields
true. -/
theorem C9_witness :
    (health_check_proxy poolC8 "socks5://9.9.9.9:1080" 50 (.resp 503 1)).1 = false ∧
    (health_check_proxy poolC8 "socks5://9.9.9.9:1080" 50 .exc).1 = false ∧
    (health_check_proxy poolC8 "socks5://9.9.9.9:1080" 50 (.resp 200 1)).1 = true := by
  have hmem : ("socks5://9.9.9.9:1080", proxC8) ∈ poolC8 := by
    simp [poolC8]
  have h := C9_health_check_boundary poolC8 "socks5://9.9.9.9:1080" 50 proxC8
    (.resp 503 1) hmem
  refine ⟨?_, ?_, ?_⟩
  · rw [h.2.2.1 503 1 (by norm_num)]
  · rw [h.2.2.2.1]
  · rw [h.2.1 1]

/-! ## Proxy selection and binding (free_proxy_manager.py) -/

/-- Sort key used by `_get_healthy_proxies`: the Python tuple
`(p.anonymity in PREFERRED_ANONYMITY, p.health_score)`. -/
def sortKey (p : ProxyInfo) : Bool × ℚ :=
  (PREFERRED_ANONYMITY.contains p.anonymity, p.health_score)

/-- Python tuple comparison on `(bool, float)` keys: `False < True`,
ties broken by the score. -/
def tupLt (a b : Bool × ℚ) : Prop :=
  (a.1 = false ∧ b.1 = true) ∨ (a.1 = b.1 ∧ a.2 < b.2)

instance (a b : Bool × ℚ) : Decidable (tupLt a b) := by
  unfold tupLt
  infer_instance

/-- Stable insertion for a descending sort: a later element goes after all
earlier elements whose key is not smaller, matching Python list.sort with
reverse=True (stable, ties keep original order). -/
def insertDesc (x : ProxyInfo) : List ProxyInfo → List ProxyInfo
  | [] => [x]
  | y :: ys => if tupLt (sortKey y) (sortKey x) then x :: y :: ys else y :: insertDesc x ys

/-- Stable descending sort by `sortKey`, modelling
`healthy.sort(key=..., reverse=True)`. -/
def sortHealthDesc (l : List ProxyInfo) : List ProxyInfo :=
  l.foldl (fun acc x => insertDesc x acc) []

/-- `FreeProxyManager._get_healthy_proxies`: healthy records of the pool,
sorted descending by (preferred anonymity, health score). -/
def get_healthy_proxies (pool : ProxyPool) : List ProxyInfo :=
  sortHealthDesc ((pool.map Prod.snd).filter fun p => p.is_healthy)

/-- `FreeProxyManager.get_best_proxy` (pool-selection part, after
`_ensure_fresh_proxies`): first healthy non-excluded URL in sorted order,
falling back to any non-excluded pool record, else none. -/
def get_best_proxy (pool : ProxyPool) (exclude_urls : List String) : Option String :=
  match (get_healthy_proxies pool).find? (fun p => !(exclude_urls.contains p.url)) with
  | some p => some p.url
  | none =>
    match (pool.map Prod.snd).find? (fun p => !(exclude_urls.contains p.url)) with
    | some p => some p.url
    | none => none

/-- Any URL returned by `get_best_proxy` is outside the exclude set. -/
theorem get_best_proxy_not_excluded (pool : ProxyPool) (exclude_urls : List String)
    (u : String) (h : get_best_proxy pool exclude_urls = some u) :
    exclude_urls.contains u = false := by
  unfold get_best_proxy at h
  cases h1 : (get_healthy_proxies pool).find? (fun p => !(exclude_urls.contains p.url)) with
  | some p =>
      rw [h1] at h
      have hp := List.find?_some h1
      simp only [Bool.not_eq_true'] at hp
      cases h
      simpa using hp
  | none =>
      rw [h1] at h
      cases h2 : (pool.map Prod.snd).find? (fun p => !(exclude_urls.contains p.url)) with
      | some p =>
          rw [h2] at h
          have hp := List.find?_some h2
          simp only [Bool.not_eq_true'] at hp
          cases h
          simpa using hp
      | none =>
          rw [h2] at h
          cases h

/-- A token row, as far as the modelled services read and write it.
`consecutive_error_count` lives in the `token_stats` table in the source but
is carried here on the same record. -/
structure Token where
  id : Int
  token : String
  email : String
  st : Option String
  rt : Option String
  client_id : Option String
  proxy_url : Option String
  expiry_time : Option ℚ
  is_active : Bool
  sora2_supported : Bool
  sora2_remaining_count : Int
  sora2_cooldown_until : Option ℚ
  consecutive_error_count : Nat
deriving DecidableEq, Repr

/-- The proxies already bound to other tokens, from the snapshot taken at the
top of `bind_proxy_to_token`: every truthy `proxy_url` of a token whose id
differs from `token_id`. -/
def usedProxies (tokens : List Token) (token_id : Int) : List String :=
  tokens.filterMap fun t =>
    match t.proxy_url with
    | some u => if u ≠ "" ∧ t.id ≠ token_id then some u else none
    | none => none

/-- The retry loop of `bind_proxy_to_token`: while attempts are left, select a
candidate outside the tried set, count the attempt, probe it with the health
check, return it on success, otherwise add it to the tried set and continue.
`pools` gives the pool contents seen at each selection (the pool may be
refreshed and mutated by health reports between iterations); `hc` is the
outcome of the live health check per URL. The second component counts probes
performed. -/
def bindLoop (pools : Nat → ProxyPool) (hc : String → Bool) (max_attempts : Nat) :
    Nat → List String → Nat → Option String × Nat
  | 0, _, attempts => (none, attempts)
  | fuel + 1, tried, attempts =>
    if attempts < max_attempts then
      match get_best_proxy (pools attempts) tried with
      | none => (none, attempts)
      | some proxy_url =>
        if hc proxy_url then (some proxy_url, attempts + 1)
        else bindLoop pools hc max_attempts fuel (proxy_url :: tried) (attempts + 1)
    else (none, attempts)

/-- `FreeProxyManager.bind_proxy_to_token`: the tried set starts as the union
of proxies bound to other tokens and the explicit excludes; the loop then
probes up to `max_attempts` candidates. Returns the bound URL or none. -/
def bind_proxy_to_token (tokens : List Token) (token_id : Int)
    (exclude_urls : List String) (max_attempts : Nat)
    (pools : Nat → ProxyPool) (hc : String → Bool) : Option String :=
  let all_excluded := usedProxies tokens token_id ++ exclude_urls
  (bindLoop pools hc max_attempts max_attempts all_excluded 0).1

/-- A URL returned by `bindLoop` passed its health check and is outside the
tried set the loop started from. -/
theorem bindLoop_success (pools : Nat → ProxyPool) (hc : String → Bool)
    (max_attempts : Nat) :
    ∀ (fuel : Nat) (tried : List String) (attempts : Nat) (u : String) (n : Nat),
      bindLoop pools hc max_attempts fuel tried attempts = (some u, n) →
      hc u = true ∧ tried.contains u = false := by
  intro fuel
  induction fuel with
  | zero =>
      intro tried attempts u n h
      simp [bindLoop] at h
  | succ fuel ih =>
      intro tried attempts u n h
      unfold bindLoop at h
      by_cases ha : attempts < max_attempts
      · rw [if_pos ha] at h
        cases hg : get_best_proxy (pools attempts) tried with
        | none => rw [hg] at h; cases h
        | some purl =>
            rw [hg] at h
            dsimp only at h
            by_cases hhc : hc purl
            · rw [if_pos hhc] at h
              have : purl = u := by
                have := congrArg Prod.fst h
                simpa using this
              subst this
              exact ⟨hhc, get_best_proxy_not_excluded _ _ _ hg⟩
            · rw [if_neg hhc] at h
              have h2 := ih (purl :: tried) (attempts + 1) u n h
              refine ⟨h2.1, ?_⟩
              have := h2.2
              simp only [List.contains_cons, Bool.or_eq_false_iff] at this
              exact this.2
      · rw [if_neg ha] at h
        cases h

/-- The probe counter of `bindLoop` never exceeds `max_attempts` when it
starts below it. -/
theorem bindLoop_attempts_le (pools : Nat → ProxyPool) (hc : String → Bool)
    (max_attempts : Nat) :
    ∀ (fuel : Nat) (tried : List String) (attempts : Nat),
      attempts ≤ max_attempts →
      (bindLoop pools hc max_attempts fuel tried attempts).2 ≤ max_attempts := by
  intro fuel
  induction fuel with
  | zero =>
      intro tried attempts h
      simpa [bindLoop] using h
  | succ fuel ih =>
      intro tried attempts h
      unfold bindLoop
      by_cases ha : attempts < max_attempts
      · rw [if_pos ha]
        cases hg : get_best_proxy (pools attempts) tried with
        | none => simpa using h
        | some purl =>
            by_cases hhc : hc purl
            · simpa [hhc] using ha
            · simpa [hhc] using ih (purl :: tried) (attempts + 1) ha
      · rw [if_neg ha]
        simpa using h

/-- `List.contains` is membership (with lawful string equality). -/
lemma contains_eq_false_iff (l : List String) (a : String) :
    l.contains a = false ↔ a ∉ l := by
  simp [List.elem_iff]

/-- Claim C4: any URL returned by `bind_proxy_to_token` passed the live health
check during this call, is outside the explicit exclude set, and is not the
(non-empty) bound proxy URL of any other credential in the storage snapshot;
the probe counter never exceeds `max_attempts` (and the call returns none once
candidates or attempts are exhausted). -/
theorem C4_bind_verified_guarantees (tokens : List Token) (token_id : Int)
    (exclude_urls : List String) (max_attempts : Nat)
    (pools : Nat → ProxyPool) (hc : String → Bool) (url : String)
    (h : bind_proxy_to_token tokens token_id exclude_urls max_attempts pools hc =
      some url) :
    hc url = true ∧
    exclude_urls.contains url = false ∧
    (∀ t, t ∈ tokens → t.id ≠ token_id → url ≠ "" → t.proxy_url ≠ some url) ∧
    (bindLoop pools hc max_attempts max_attempts
      (usedProxies tokens token_id ++ exclude_urls) 0).2 ≤ max_attempts := by
  unfold bind_proxy_to_token at h
  have hpair : bindLoop pools hc max_attempts max_attempts
      (usedProxies tokens token_id ++ exclude_urls) 0 =
      (some url, (bindLoop pools hc max_attempts max_attempts
        (usedProxies tokens token_id ++ exclude_urls) 0).2) := by
    rw [← h]
  have hs := bindLoop_success pools hc max_attempts max_attempts
    (usedProxies tokens token_id ++ exclude_urls) 0 url _ hpair
  have hnotmem : url ∉ usedProxies tokens token_id ++ exclude_urls :=
    (contains_eq_false_iff _ _).mp hs.2
  rw [List.mem_append] at hnotmem
  push_neg at hnotmem
  refine ⟨hs.1, ?_, ?_, ?_⟩
  · exact (contains_eq_false_iff _ _).mpr hnotmem.2
  · intro t ht hid hne hurl
    apply hnotmem.1
    rw [usedProxies, List.mem_filterMap]
    refine ⟨t, ht, ?_⟩
    rw [hurl]
    simp [hne, hid]
  · exact bindLoop_attempts_le pools hc max_attempts max_attempts _ 0
      (Nat.zero_le _)

/-- A healthy concrete record for the C4 witness. -/
def proxC4 : ProxyInfo :=
  { url := "socks5://7.7.7.7:1080", protocol := "socks5", ip := "7.7.7.7",
    port := 1080, https := false, anonymity := "elite", score := 1,
    country := "US", success_count := 0, failure_count := 0,
    last_used := none, last_success := none, last_failure := none,
    avg_response_time := 0, is_healthy := true }

/-- The singleton pool holding `proxC4`. -/
def poolC4 : ProxyPool := [("socks5://7.7.7.7:1080", proxC4)]

/-- Witness for C4: on an empty token snapshot and a one-proxy pool whose
health check passes, the bind returns that proxy and the guarantees hold. -/
theorem C4_witness :
    (fun _ : String => true) "socks5://7.7.7.7:1080" = true ∧
    ([] : List String).contains "socks5://7.7.7.7:1080" = false := by
  have h := C4_bind_verified_guarantees [] 1 [] 10 (fun _ => poolC4)
    (fun _ => true) "socks5://7.7.7.7:1080" (by rfl)
  exact ⟨h.1, h.2.1⟩

/-! ## Racing for the fastest proxy (free_proxy_manager.py,
`find_fastest_working_proxy`) -/

/-- Stable ascending insertion by measured response time, modelling
`results.sort(key=lambda x: x[1])` (Python sort is stable; a later element
goes after earlier elements with an equal key). -/
def insertByTime (x : String × ℚ) : List (String × ℚ) → List (String × ℚ)
  | [] => [x]
  | y :: ys => if x.2 < y.2 then x :: y :: ys else y :: insertByTime x ys

/-- Stable sort of probe results by response time. -/
def sortByTime (l : List (String × ℚ)) : List (String × ℚ) :=
  l.foldl (fun acc x => insertByTime x acc) []

/-- The candidate URLs `proxies_to_test`: healthy pool records in sorted
order, minus the exclude set, capped at `max_test`. -/
def candidatesToTest (pool : ProxyPool) (exclude_urls : List String)
    (max_test : Nat) : List String :=
  (((get_healthy_proxies pool).filter fun p => !(exclude_urls.contains p.url)).map
    (fun p => p.url)).take max_test

/-- `FreeProxyManager.find_fastest_working_proxy`: probe the candidates
(`probe u = some latency` models a 200 response with its measured time,
`none` models a non-200 status or an exception), collect the successes, and
return the head of the results sorted by latency, or none when there are no
candidates or no successes. -/
def find_fastest_working_proxy (pool : ProxyPool) (exclude_urls : List String)
    (max_test : Nat) (probe : String → Option ℚ) : Option (String × ℚ) :=
  let proxies_to_test := candidatesToTest pool exclude_urls max_test
  if proxies_to_test.isEmpty then none
  else
    let results := proxies_to_test.filterMap fun u => (probe u).map fun rt => (u, rt)
    if results.isEmpty then none
    else (sortByTime results).head?

lemma mem_insertByTime (x a : String × ℚ) (l : List (String × ℚ)) :
    a ∈ insertByTime x l ↔ a = x ∨ a ∈ l := by
  induction l with
  | nil => simp [insertByTime]
  | cons y ys ih =>
      unfold insertByTime
      split
      · simp
      · simp [ih]
        tauto

lemma mem_sortByTime_aux (l : List (String × ℚ)) :
    ∀ (acc : List (String × ℚ)) (a : String × ℚ),
      a ∈ l.foldl (fun acc x => insertByTime x acc) acc ↔ a ∈ acc ∨ a ∈ l := by
  induction l with
  | nil => simp
  | cons y ys ih =>
      intro acc a
      simp only [List.foldl_cons, ih, mem_insertByTime, List.mem_cons]
      tauto

lemma mem_sortByTime (l : List (String × ℚ)) (a : String × ℚ) :
    a ∈ sortByTime l ↔ a ∈ l := by
  unfold sortByTime
  rw [mem_sortByTime_aux]
  simp

lemma sorted_insertByTime (x : String × ℚ) (l : List (String × ℚ))
    (h : l.Pairwise fun a b => a.2 ≤ b.2) :
    (insertByTime x l).Pairwise fun a b => a.2 ≤ b.2 := by
  induction l with
  | nil => simp [insertByTime]
  | cons y ys ih =>
      unfold insertByTime
      rw [List.pairwise_cons] at h
      split <;> rename_i hlt
      · rw [List.pairwise_cons]
        constructor
        · intro b hb
          rcases List.mem_cons.mp hb with hb | hb
          · subst hb
            exact le_of_lt hlt
          · exact le_trans (le_of_lt hlt) (h.1 b hb)
        · exact List.pairwise_cons.mpr h
      · rw [List.pairwise_cons]
        constructor
        · intro b hb
          rcases (mem_insertByTime x b ys).mp hb with hb | hb
          · subst hb
            exact le_of_not_lt hlt
          · exact h.1 b hb
        · exact ih h.2

lemma sorted_sortByTime_aux (l : List (String × ℚ)) :
    ∀ (acc : List (String × ℚ)), (acc.Pairwise fun a b => a.2 ≤ b.2) →
      (l.foldl (fun acc x => insertByTime x acc) acc).Pairwise fun a b => a.2 ≤ b.2 := by
  induction l with
  | nil => simp
  | cons y ys ih =>
      intro acc hacc
      exact ih _ (sorted_insertByTime y acc hacc)

lemma sorted_sortByTime (l : List (String × ℚ)) :
    (sortByTime l).Pairwise fun a b => a.2 ≤ b.2 :=
  sorted_sortByTime_aux l [] (by simp)

lemma sortByTime_head_min (l : List (String × ℚ)) (f : String × ℚ)
    (hf : (sortByTime l).head? = some f) :
    f ∈ l ∧ ∀ a ∈ l, f.2 ≤ a.2 := by
  cases hs : sortByTime l with
  | nil => rw [hs] at hf; cases hf
  | cons g gs =>
      rw [hs] at hf
      have hg : g = f := by
        simpa using hf
      subst hg
      constructor
      · exact (mem_sortByTime l g).mp (by rw [hs]; exact List.mem_cons_self g gs)
      · intro a ha
        have hmem : a ∈ sortByTime l := (mem_sortByTime l a).mpr ha
        rw [hs] at hmem
        rcases List.mem_cons.mp hmem with h | h
        · subst h
          exact le_refl _
        · have hp := sorted_sortByTime l
          rw [hs, List.pairwise_cons] at hp
          exact hp.1 a h

/-- Claim C6: whenever `find_fastest_working_proxy` returns `(url, rt)`, the
probe of `url` succeeded with latency `rt` and every probed candidate that
succeeded has latency at least `rt` (so a failed candidate is never the
winner); and when every probed candidate fails, the function returns none. -/
theorem C6_find_fastest (pool : ProxyPool) (exclude_urls : List String)
    (max_test : Nat) (probe : String → Option ℚ) :
    (∀ url rt,
      find_fastest_working_proxy pool exclude_urls max_test probe = some (url, rt) →
        probe url = some rt ∧
        url ∈ candidatesToTest pool exclude_urls max_test ∧
        ∀ u s, u ∈ candidatesToTest pool exclude_urls max_test →
          probe u = some s → rt ≤ s) ∧
    ((∀ u, u ∈ candidatesToTest pool exclude_urls max_test → probe u = none) →
      find_fastest_working_proxy pool exclude_urls max_test probe = none) := by
  constructor
  · intro url rt h
    unfold find_fastest_working_proxy at h
    by_cases hne : (candidatesToTest pool exclude_urls max_test).isEmpty
    · rw [if_pos hne] at h
      cases h
    · rw [if_neg hne] at h
      set results := (candidatesToTest pool exclude_urls max_test).filterMap
        (fun u => (probe u).map fun rt => (u, rt)) with hres
      by_cases hre : results.isEmpty
      · rw [if_pos hre] at h
        cases h
      · rw [if_neg hre] at h
        have hmin := sortByTime_head_min results (url, rt) h
        have hmem := hmin.1
        rw [hres, List.mem_filterMap] at hmem
        obtain ⟨u0, hu0, hmap⟩ := hmem
        have : u0 = url ∧ probe u0 = some rt := by
          cases hp : probe u0 with
          | none => rw [hp] at hmap; cases hmap
          | some q =>
              rw [hp] at hmap
              simp only [Option.map_some'] at hmap
              cases hmap
              exact ⟨rfl, rfl⟩
        obtain ⟨hu0eq, hpu⟩ := this
        subst hu0eq
        refine ⟨hpu, hu0, ?_⟩
        intro u s hu hs
        have : (u, s) ∈ results := by
          rw [hres, List.mem_filterMap]
          exact ⟨u, hu, by rw [hs]; rfl⟩
        exact hmin.2 (u, s) this
  · intro hall
    unfold find_fastest_working_proxy
    by_cases hne : (candidatesToTest pool exclude_urls max_test).isEmpty
    · rw [if_pos hne]
    · rw [if_neg hne]
      have hres : (candidatesToTest pool exclude_urls max_test).filterMap
          (fun u => (probe u).map fun rt => (u, rt)) = [] := by
        rw [List.filterMap_eq_nil_iff]
        intro u hu
        rw [hall u hu]
        rfl
      rw [hres]
      simp

/-- C6 witness record A (origin score 1, probe will fail). -/
def proxA6 : ProxyInfo :=
  { url := "socks5://10.0.0.1:1080", protocol := "socks5", ip := "10.0.0.1",
    port := 1080, https := false, anonymity := "elite", score := 1,
    country := "US", success_count := 0, failure_count := 0,
    last_used := none, last_success := none, last_failure := none,
    avg_response_time := 0, is_healthy := true }

/-- C6 witness record B (origin score 2, probe succeeds in 0.5s). -/
def proxB6 : ProxyInfo :=
  { proxA6 with url := "socks5://10.0.0.2:1080", ip := "10.0.0.2", score := 2 }

/-- C6 witness record C (origin score 3, probe succeeds in 0.2s). -/
def proxC6 : ProxyInfo :=
  { proxA6 with url := "socks5://10.0.0.3:1080", ip := "10.0.0.3", score := 3 }

/-- C6 witness pool. -/
def poolC6 : ProxyPool :=
  [ ("socks5://10.0.0.1:1080", proxA6),
    ("socks5://10.0.0.2:1080", proxB6),
    ("socks5://10.0.0.3:1080", proxC6) ]

/-- C6 witness probe outcomes: A fails, B answers in 1/2 s, C in 1/5 s. -/
def probeC6 : String → Option ℚ := fun u =>
  if u = "socks5://10.0.0.2:1080" then some (1 / 2)
  else if u = "socks5://10.0.0.3:1080" then some (1 / 5)
  else none

/-- Witness for C6: over candidates A (fails), B (0.5s), C (0.2s) the race
returns C with latency 0.2s, C's probe succeeded, and C's latency is at most
B's. -/
theorem C6_witness :
    probeC6 "socks5://10.0.0.3:1080" = some (1 / 5) ∧ (1 : ℚ) / 5 ≤ 1 / 2 := by
  have hcand : candidatesToTest poolC6 [] 100 =
      ["socks5://10.0.0.3:1080", "socks5://10.0.0.2:1080", "socks5://10.0.0.1:1080"] := by
    norm_num [candidatesToTest, get_healthy_proxies, sortHealthDesc, insertDesc,
      tupLt, sortKey, PREFERRED_ANONYMITY, ProxyInfo.health_score,
      poolC6, proxA6, proxB6, proxC6]
  have hres : List.filterMap (fun u => (probeC6 u).map fun rt => (u, rt))
      ["socks5://10.0.0.3:1080", "socks5://10.0.0.2:1080", "socks5://10.0.0.1:1080"] =
      [("socks5://10.0.0.3:1080", 1 / 5), ("socks5://10.0.0.2:1080", 1 / 2)] := rfl
  have hfind : find_fastest_working_proxy poolC6 [] 100 probeC6 =
      some ("socks5://10.0.0.3:1080", 1 / 5) := by
    unfold find_fastest_working_proxy
    rw [hcand]
    norm_num [hres, sortByTime, insertByTime]
  have h := (C6_find_fastest poolC6 [] 100 probeC6).1 "socks5://10.0.0.3:1080"
    (1 / 5) hfind
  refine ⟨h.1, ?_⟩
  have hmemB : "socks5://10.0.0.2:1080" ∈ candidatesToTest poolC6 [] 100 := by
    rw [hcand]
    simp
  exact h.2.2 "socks5://10.0.0.2:1080" (1 / 2) hmemB (by norm_num [probeC6])

/-! ## Pool refresh (free_proxy_manager.py, `_refresh_proxy_list`) -/

/-- One entry of the fetched proxifly JSON document, with the defaults the
source supplies on missing fields already applied
(`protocol` defaults to http, `ip` to the empty string, `port` to 0,
`score` to 0, `https` to false, `anonymity` to unknown,
`geolocation.country` to Unknown). -/
structure RawProxy where
  protocol : String
  ip : String
  port : Nat
  https : Bool
  anonymity : String
  score : ℚ
  country : String
deriving DecidableEq, Repr

/-- The unique pool key `f"{protocol}://{ip}:{port}"`. -/
def buildProxyUrl (r : RawProxy) : String :=
  r.protocol ++ "://" ++ r.ip ++ ":" ++ toString r.port

/-- Python dict lookup on the association-list pool. -/
def dictGet : ProxyPool → String → Option ProxyInfo
  | [], _ => none
  | kv :: rest, k => if kv.1 = k then some kv.2 else dictGet rest k

/-- Python dict assignment: replace in place when the key is present,
append otherwise. -/
def dictInsert : ProxyPool → String → ProxyInfo → ProxyPool
  | [], k, v => [(k, v)]
  | kv :: rest, k, v => if kv.1 = k then (k, v) :: rest else kv :: dictInsert rest k v

/-- The filter of `_refresh_proxy_list`: keep an entry iff its score is at
least `MIN_SCORE`, its ip and port are truthy, and its protocol is in the
allow-list. -/
def KeepsRaw (r : RawProxy) : Prop :=
  ¬ r.score < MIN_SCORE ∧ ¬ (r.ip = "" ∨ r.port = 0) ∧ r.protocol ∈ ALLOWED_PROTOCOLS

instance (r : RawProxy) : Decidable (KeepsRaw r) := by
  unfold KeepsRaw
  infer_instance

/-- A fresh record created for a key not previously in the pool: zeroed
health state and `is_healthy = true`. -/
def freshProxyInfo (r : RawProxy) (url : String) : ProxyInfo :=
  { url := url, protocol := r.protocol, ip := r.ip, port := r.port,
    https := r.https, anonymity := r.anonymity, score := r.score,
    country := r.country, success_count := 0, failure_count := 0,
    last_used := none, last_success := none, last_failure := none,
    avg_response_time := 0, is_healthy := true }

/-- The record written for a kept entry: the existing record with only the
score refreshed when the key is already in the old pool, a fresh record
otherwise. -/
def refreshValue (old : ProxyPool) (r : RawProxy) : ProxyInfo :=
  match dictGet old (buildProxyUrl r) with
  | some existing => { existing with score := r.score }
  | none => freshProxyInfo r (buildProxyUrl r)

/-- One iteration of the parse-and-filter loop of `_refresh_proxy_list`,
building `new_proxies`. -/
def refreshStep (old : ProxyPool) (acc : ProxyPool) (r : RawProxy) : ProxyPool :=
  if r.score < MIN_SCORE then acc
  else if r.ip = "" ∨ r.port = 0 then acc
  else if r.protocol ∈ ALLOWED_PROTOCOLS then
    dictInsert acc (buildProxyUrl r) (refreshValue old r)
  else acc

/-- The successful path of `FreeProxyManager._refresh_proxy_list`: build the
filtered and merged dict from the fetched document and replace the whole
pool with it. -/
def refresh_proxy_list (old : ProxyPool) (fetched : List RawProxy) : ProxyPool :=
  fetched.foldl (refreshStep old) []

lemma dictGet_insert_self (m : ProxyPool) (k : String) (v : ProxyInfo) :
    dictGet (dictInsert m k v) k = some v := by
  induction m with
  | nil => simp [dictInsert, dictGet]
  | cons kv rest ih =>
      unfold dictInsert
      by_cases h : kv.1 = k
      · rw [if_pos h]
        simp [dictGet]
      · rw [if_neg h]
        unfold dictGet
        rw [if_neg h]
        exact ih

lemma dictGet_insert_ne (m : ProxyPool) (k k2 : String) (v : ProxyInfo)
    (h : k2 ≠ k) : dictGet (dictInsert m k v) k2 = dictGet m k2 := by
  induction m with
  | nil =>
      simp only [dictInsert, dictGet]
      rw [if_neg (fun he : k = k2 => h he.symm)]
  | cons kv rest ih =>
      unfold dictInsert
      by_cases hk : kv.1 = k
      · rw [if_pos hk]
        unfold dictGet
        rw [if_neg (fun he => h he.symm), if_neg (by rw [hk]; exact fun he => h he.symm)]
      · rw [if_neg hk]
        unfold dictGet
        by_cases h2 : kv.1 = k2
        · rw [if_pos h2, if_pos h2]
        · rw [if_neg h2, if_neg h2]
          exact ih

/-- Every value the refresh fold stores under `url` is `refreshValue old r`
for some kept fetched entry `r` with that key; values at other keys are
untouched. -/
lemma refresh_foldl_get (old : ProxyPool) (url : String) (C : ProxyInfo → Prop) :
    ∀ (l : List RawProxy) (acc : ProxyPool),
      (∀ q, dictGet acc url = some q → C q) →
      (∀ r, r ∈ l → KeepsRaw r → buildProxyUrl r = url → C (refreshValue old r)) →
      ∀ q, dictGet (l.foldl (refreshStep old) acc) url = some q → C q := by
  intro l
  induction l with
  | nil =>
      intro acc hacc _ q hq
      exact hacc q hq
  | cons r rs ih =>
      intro acc hacc hl q hq
      rw [List.foldl_cons] at hq
      refine ih (refreshStep old acc r) ?_ (fun s hs => hl s (List.mem_cons_of_mem r hs)) q hq
      intro q2 hq2
      unfold refreshStep at hq2
      by_cases h1 : r.score < MIN_SCORE
      · rw [if_pos h1] at hq2
        exact hacc q2 hq2
      · rw [if_neg h1] at hq2
        by_cases h2 : r.ip = "" ∨ r.port = 0
        · rw [if_pos h2] at hq2
          exact hacc q2 hq2
        · rw [if_neg h2] at hq2
          by_cases h3 : r.protocol ∈ ALLOWED_PROTOCOLS
          · rw [if_pos h3] at hq2
            by_cases hurl : buildProxyUrl r = url
            · rw [hurl, dictGet_insert_self] at hq2
              cases hq2
              exact hl r (List.mem_cons_self r rs) ⟨h1, h2, h3⟩ hurl
            · rw [dictGet_insert_ne _ _ _ _ (fun he => hurl he.symm)] at hq2
              exact hacc q2 hq2
          · rw [if_neg h3] at hq2
            exact hacc q2 hq2

/-- Claim C7: after a successful refresh, a key already present in the old
pool keeps all its health fields and only its origin score is replaced (by
the score of a kept fetched entry with that key); a key not previously
present gets a fresh record with zeroed health state and `is_healthy = true`;
and a URL that no kept fetched entry produces is absent from the new pool. -/
theorem C7_refresh_frame (old : ProxyPool) (fetched : List RawProxy) (url : String) :
    (∀ p q, dictGet old url = some p →
      dictGet (refresh_proxy_list old fetched) url = some q →
      q.success_count = p.success_count ∧ q.failure_count = p.failure_count ∧
      q.last_used = p.last_used ∧ q.last_success = p.last_success ∧
      q.last_failure = p.last_failure ∧
      q.avg_response_time = p.avg_response_time ∧ q.is_healthy = p.is_healthy ∧
      ∃ r, r ∈ fetched ∧ KeepsRaw r ∧ buildProxyUrl r = url ∧
        q = { p with score := r.score }) ∧
    (dictGet old url = none → ∀ q,
      dictGet (refresh_proxy_list old fetched) url = some q →
      q.success_count = 0 ∧ q.failure_count = 0 ∧ q.last_used = none ∧
      q.last_success = none ∧ q.last_failure = none ∧
      q.avg_response_time = 0 ∧ q.is_healthy = true ∧
      ∃ r, r ∈ fetched ∧ KeepsRaw r ∧ buildProxyUrl r = url ∧
        q = freshProxyInfo r url) ∧
    ((∀ r, r ∈ fetched → KeepsRaw r → buildProxyUrl r ≠ url) →
      dictGet (refresh_proxy_list old fetched) url = none) := by
  refine ⟨?_, ?_, ?_⟩
  · intro p q hold hnew
    refine refresh_foldl_get old url
      (fun q => q.success_count = p.success_count ∧ q.failure_count = p.failure_count ∧
        q.last_used = p.last_used ∧ q.last_success = p.last_success ∧
        q.last_failure = p.last_failure ∧
        q.avg_response_time = p.avg_response_time ∧ q.is_healthy = p.is_healthy ∧
        ∃ r, r ∈ fetched ∧ KeepsRaw r ∧ buildProxyUrl r = url ∧
          q = { p with score := r.score })
      fetched [] ?_ ?_ q hnew
    · intro q2 hq2
      simp [dictGet] at hq2
    · intro r hr hk hurl
      unfold refreshValue
      rw [hurl, hold]
      exact ⟨rfl, rfl, rfl, rfl, rfl, rfl, rfl, r, hr, hk, hurl, rfl⟩
  · intro hold q hnew
    refine refresh_foldl_get old url
      (fun q => q.success_count = 0 ∧ q.failure_count = 0 ∧ q.last_used = none ∧
        q.last_success = none ∧ q.last_failure = none ∧
        q.avg_response_time = 0 ∧ q.is_healthy = true ∧
        ∃ r, r ∈ fetched ∧ KeepsRaw r ∧ buildProxyUrl r = url ∧
          q = freshProxyInfo r url)
      fetched [] ?_ ?_ q hnew
    · intro q2 hq2
      simp [dictGet] at hq2
    · intro r hr hk hurl
      unfold refreshValue
      rw [hurl, hold]
      exact ⟨rfl, rfl, rfl, rfl, rfl, rfl, rfl, r, hr, hk, hurl, rfl⟩
  · intro hnone
    cases hq : dictGet (refresh_proxy_list old fetched) url with
    | none => rfl
    | some q =>
        exfalso
        refine refresh_foldl_get old url (fun _ => False) fetched [] ?_ ?_ q hq
        · intro q2 hq2
          simp [dictGet] at hq2
        · intro r hr hk hurl
          exact hnone r hr hk hurl

/-- C7 witness: the old-pool record that persists across the refresh. -/
def proxK7 : ProxyInfo :=
  { url := "socks5://1.1.1.1:80", protocol := "socks5", ip := "1.1.1.1",
    port := 80, https := false, anonymity := "elite", score := 1,
    country := "US", success_count := 5, failure_count := 2,
    last_used := some 40, last_success := some 40, last_failure := some 30,
    avg_response_time := 2, is_healthy := true }

/-- C7 witness: the old-pool record whose URL disappears from the fetch. -/
def proxG7 : ProxyInfo :=
  { proxK7 with url := "socks5://2.2.2.2:80", ip := "2.2.2.2" }

/-- C7 witness old pool. -/
def oldC7 : ProxyPool :=
  [("socks5://1.1.1.1:80", proxK7), ("socks5://2.2.2.2:80", proxG7)]

/-- C7 witness fetched entry re-seeing the persisting URL with a new score. -/
def rawK7 : RawProxy :=
  { protocol := "socks5", ip := "1.1.1.1", port := 80, https := false,
    anonymity := "elite", score := 2, country := "US" }

/-- C7 witness fetched entry for a brand-new URL. -/
def rawN7 : RawProxy :=
  { protocol := "socks5", ip := "3.3.3.3", port := 80, https := false,
    anonymity := "anonymous", score := 1, country := "DE" }

/-- C7 witness fetched document. -/
def fetchedC7 : List RawProxy := [rawK7, rawN7]

/-- Witness for C7 on a concrete refresh: the re-seen URL keeps its counters
and only its score changes, the new URL gets a fresh zeroed record, and the
vanished URL is dropped. -/
theorem C7_witness :
    (∃ q, dictGet (refresh_proxy_list oldC7 fetchedC7) "socks5://1.1.1.1:80" = some q ∧
      q.success_count = 5 ∧ q.failure_count = 2 ∧ q.score = 2) ∧
    (∃ q, dictGet (refresh_proxy_list oldC7 fetchedC7) "socks5://3.3.3.3:80" = some q ∧
      q.success_count = 0 ∧ q.is_healthy = true) ∧
    dictGet (refresh_proxy_list oldC7 fetchedC7) "socks5://2.2.2.2:80" = none := by
  have hk1 : ¬ rawK7.score < MIN_SCORE := by
    norm_num [rawK7, MIN_SCORE]
  have hk2 : ¬ rawN7.score < MIN_SCORE := by
    norm_num [rawN7, MIN_SCORE]
  have href : refresh_proxy_list oldC7 fetchedC7 =
      [("socks5://1.1.1.1:80", { proxK7 with score := 2 }),
       ("socks5://3.3.3.3:80", freshProxyInfo rawN7 "socks5://3.3.3.3:80")] := by
    unfold refresh_proxy_list fetchedC7
    rw [List.foldl_cons, List.foldl_cons, List.foldl_nil]
    unfold refreshStep
    rw [if_neg hk1, if_neg hk2]
    rw [if_neg (show ¬ (rawK7.ip = "" ∨ rawK7.port = 0) by decide)]
    rw [if_neg (show ¬ (rawN7.ip = "" ∨ rawN7.port = 0) by decide)]
    rw [if_pos (show rawK7.protocol ∈ ALLOWED_PROTOCOLS by decide)]
    rw [if_pos (show rawN7.protocol ∈ ALLOWED_PROTOCOLS by decide)]
    rfl
  have hK : dictGet (refresh_proxy_list oldC7 fetchedC7) "socks5://1.1.1.1:80" =
      some { proxK7 with score := 2 } := by
    rw [href]
    rfl
  have hN : dictGet (refresh_proxy_list oldC7 fetchedC7) "socks5://3.3.3.3:80" =
      some (freshProxyInfo rawN7 "socks5://3.3.3.3:80") := by
    rw [href]
    rfl
  have h1 := (C7_refresh_frame oldC7 fetchedC7 "socks5://1.1.1.1:80").1 proxK7
    { proxK7 with score := 2 } rfl hK
  have h2 := (C7_refresh_frame oldC7 fetchedC7 "socks5://3.3.3.3:80").2.1 rfl
    (freshProxyInfo rawN7 "socks5://3.3.3.3:80") hN
  have hno : ∀ r, r ∈ fetchedC7 → KeepsRaw r →
      buildProxyUrl r ≠ "socks5://2.2.2.2:80" := by
    intro r hr _
    rcases List.mem_cons.mp hr with hr | hr
    · subst hr
      decide
    · rcases List.mem_cons.mp hr with hr | hr
      · subst hr
        decide
      · cases hr
  have h3 := (C7_refresh_frame oldC7 fetchedC7 "socks5://2.2.2.2:80").2.2 hno
  refine ⟨⟨{ proxK7 with score := 2 }, hK, ?_, ?_, rfl⟩,
    ⟨freshProxyInfo rawN7 "socks5://3.3.3.3:80", hN, h2.1, h2.2.2.2.2.2.2.1⟩, h3⟩
  · rw [h1.1]
    rfl
  · rw [h1.2.1]
    rfl

/-! ## Proxy routing (proxy_manager.py) and its use by token_manager.py -/

/-- The admin proxy configuration row (`get_proxy_config`). -/
structure ProxyConfig where
  proxy_enabled : Bool
  proxy_url : Option String
deriving DecidableEq, Repr

/-- The collaborators `ProxyManager.get_proxy_url` reads: the token table,
the free-pool flags, the outcome of a free-pool bind per token id, and the
global proxy configuration. -/
structure RouterEnv where
  getToken : Int → Option Token
  free_proxy_enabled : Bool
  has_free_proxy_manager : Bool
  bind_result : Int → Option String
  proxy_config : ProxyConfig

/-- The global-fallback tail of `get_proxy_url`: the configured global proxy
with action "global" when enabled and truthy, else no proxy and no action. -/
def globalFallback (env : RouterEnv) : Option String × Option String :=
  if env.proxy_config.proxy_enabled && strTruthy env.proxy_config.proxy_url then
    (env.proxy_config.proxy_url, some "global")
  else (none, none)

/-- `ProxyManager.get_proxy_url`: explicit URL first, then the token's bound
proxy, then a free-pool bind (when enabled, a manager is set and the token
exists), then the global fallback. Returns the Python pair
`(proxy_url, bind_action)`. -/
def get_proxy_url (env : RouterEnv) (token_id : Option Int)
    (proxy_url : Option String) : Option String × Option String :=
  if strTruthy proxy_url then (proxy_url, none)
  else
    match token_id with
    | some tid =>
      match env.getToken tid with
      | some tok =>
        if strTruthy tok.proxy_url then (tok.proxy_url, none)
        else if env.free_proxy_enabled && env.has_free_proxy_manager then
          match env.bind_result tid with
          | some new_proxy => (some new_proxy, some "bound")
          | none => globalFallback env
        else globalFallback env
      | none =>
        if env.free_proxy_enabled && env.has_free_proxy_manager then
          globalFallback env
        else globalFallback env
    | none => globalFallback env

/-- Python truthiness of a pair value: a tuple of arity 2 is non-empty and
therefore always truthy, whatever its components. -/
def pyPairTruthy (_pair : Option String × Option String) : Bool := true

/-- The value the TokenManager callers (`get_user_info`,
`get_subscription_info`, `st_to_at`, ...) place in the session kwargs under
the proxy key: they assign the whole pair returned by `get_proxy_url` to
`proxy_url` and run `if proxy_url: kwargs["proxy"] = proxy_url`, so the
option carries the pair itself whenever the pair is truthy. -/
def sessionProxyOption (env : RouterEnv) (token_id : Option Int)
    (proxy_url0 : Option String) : Option (Option String × Option String) :=
  let proxy_url := get_proxy_url env token_id proxy_url0
  if pyPairTruthy proxy_url then some proxy_url else none

/-- The proxy option as claim C2 states it should be: the string component of
the router result, omitted entirely when that component is None. -/
def specSessionProxyOption (env : RouterEnv) (token_id : Option Int)
    (proxy_url0 : Option String) : Option String :=
  (get_proxy_url env token_id proxy_url0).1

/-- A router environment with no tokens, no free pool and the global proxy
disabled: `get_proxy_url` resolves to `(None, None)`. -/
def envC2 : RouterEnv :=
  { getToken := fun _ => none,
    free_proxy_enabled := false,
    has_free_proxy_manager := false,
    bind_result := fun _ => none,
    proxy_config := { proxy_enabled := false, proxy_url := none } }

/-- `envC2` with the global fallback proxy enabled. -/
def envC2g : RouterEnv :=
  { envC2 with
    proxy_config := { proxy_enabled := true, proxy_url := some "http://global:8080" } }

/-- Claim C2 (code bug): with no resolvable proxy the router returns
`(None, None)`, whose string component is None, so per the claim no proxy
option should be passed — but the callers pass the tuple `(None, None)`
itself, because a 2-tuple is always truthy; and with a resolvable global
proxy the option carries the pair `(url, "global")` rather than the plain
URL string. -/
theorem C2_proxy_kwarg_divergence :
    sessionProxyOption envC2 none none = some (none, none) ∧
    specSessionProxyOption envC2 none none = none ∧
    (sessionProxyOption envC2g none none =
      some (some "http://global:8080", some "global")) := by
  refine ⟨rfl, rfl, rfl⟩

/-! ## Credential auto-refresh (token_manager.py, `auto_refresh_expiring_token`) -/

/-- The result of a successful credential exchange (`st_to_at` / `rt_to_at`):
the new access token together with the expiry its JWT payload decodes to. -/
structure ExchangedAT where
  access_token : String
  exp : Option ℚ
deriving DecidableEq, Repr

/-- The result of a successful `rt_to_at` call: the new access token and the
possibly-rotated refresh token. -/
structure RtResult where
  newAT : ExchangedAT
  refresh_token : Option String
deriving DecidableEq, Repr

/-- Oracles for one `auto_refresh_expiring_token` run: the clock, the outcome
of the ST exchange (none = the call raised), the outcome of the RT exchange,
and whether the validation probe inside `update_token` reports valid. -/
structure RefreshEnv where
  now : ℚ
  st_result : Option ExchangedAT
  rt_result : Option RtResult
  test_valid : Bool
deriving Repr

/-- The db layer's update convention: a None parameter leaves the stored
field unchanged. -/
def updOptStr (old upd : Option String) : Option String :=
  match upd with
  | some s => some s
  | none => old

/-- `TokenManager.update_token` as invoked by the refresh path: store the new
access token with the expiry decoded from it, update ST/RT under the
keep-when-None convention, then (test step, abstracted by `test_valid`,
which folds in test_token's own behaviour) re-enable the token when the
validation probe succeeds. -/
def update_token_model (t : Token) (newAT : ExchangedAT) (st rt : Option String)
    (test_valid : Bool) : Token :=
  let t1 := { t with
    token := newAT.access_token,
    expiry_time := match newAT.exp with | some e => some e | none => t.expiry_time,
    st := updOptStr t.st st,
    rt := updOptStr t.rt rt }
  if test_valid then { t1 with is_active := true } else t1

/-- `TokenManager.disable_token`. -/
def disable_token (t : Token) : Token := { t with is_active := false }

/-- `TokenManager.auto_refresh_expiring_token`: skip when the token is
missing, has no expiry, or expires in more than 24 hours; otherwise try the
ST exchange first and the RT exchange second, replace the credential on the
first success, and disable the token (returning false) when both exchanges
fail or when the refreshed expiry is still in the past. -/
def auto_refresh_expiring_token (env : RefreshEnv) (tok : Option Token) :
    Bool × Option Token :=
  match tok with
  | none => (false, none)
  | some t =>
    match t.expiry_time with
    | none => (false, some t)
    | some exp =>
      let hours_until_expiry := (exp - env.now) / 3600
      if 24 < hours_until_expiry then (false, some t)
      else
        let stAttempt : Option (ExchangedAT × Option String × Option String) :=
          if strTruthy t.st then
            match env.st_result with
            | some r => some (r, t.st, none)
            | none => none
          else none
        let attempt : Option (ExchangedAT × Option String × Option String) :=
          match stAttempt with
          | some a => some a
          | none =>
            if strTruthy t.rt then
              match env.rt_result with
              | some rr => some (rr.newAT, none, rr.refresh_token)
              | none => none
            else none
        match attempt with
        | none => (false, some (disable_token t))
        | some a =>
          let t2 := update_token_model t a.1 a.2.1 a.2.2 env.test_valid
          let new_hours : ℚ :=
            match t2.expiry_time with
            | some e => (e - env.now) / 3600
            | none => -1
          if new_hours < 0 then (false, some (disable_token t2))
          else (true, some t2)

lemma update_token_model_token (t : Token) (a : ExchangedAT) (st rt : Option String)
    (tv : Bool) : (update_token_model t a st rt tv).token = a.access_token := by
  unfold update_token_model
  cases tv <;> rfl

lemma update_token_model_expiry (t : Token) (a : ExchangedAT) (st rt : Option String)
    (tv : Bool) : (update_token_model t a st rt tv).expiry_time =
      (match a.exp with | some e => some e | none => t.expiry_time) := by
  unfold update_token_model
  cases tv <;> rfl

/-- Claim C3: on a credential with a known expiry at most 24h away the refresh
tries the ST exchange first and the RT exchange second; the first success
replaces the primary credential; when both attempts fail the credential is
disabled and the call returns false; when the refreshed expiry is still in the
past the credential is disabled and the call returns false; and with no known
expiry or more than 24h of slack the call is a no-op returning false. -/
theorem C3_auto_refresh (env : RefreshEnv) (t : Token) :
    (t.expiry_time = none →
      auto_refresh_expiring_token env (some t) = (false, some t)) ∧
    (∀ exp, t.expiry_time = some exp → 24 < (exp - env.now) / 3600 →
      auto_refresh_expiring_token env (some t) = (false, some t)) ∧
    (∀ exp, t.expiry_time = some exp → ¬ 24 < (exp - env.now) / 3600 →
      strTruthy t.st = true → ∀ r, env.st_result = some r →
      ∃ t2, (auto_refresh_expiring_token env (some t)).2 = some t2 ∧
        t2.token = r.access_token) ∧
    (∀ exp, t.expiry_time = some exp → ¬ 24 < (exp - env.now) / 3600 →
      (strTruthy t.st = false ∨ env.st_result = none) →
      strTruthy t.rt = true → ∀ rr, env.rt_result = some rr →
      ∃ t2, (auto_refresh_expiring_token env (some t)).2 = some t2 ∧
        t2.token = rr.newAT.access_token) ∧
    (∀ exp, t.expiry_time = some exp → ¬ 24 < (exp - env.now) / 3600 →
      (strTruthy t.st = false ∨ env.st_result = none) →
      (strTruthy t.rt = false ∨ env.rt_result = none) →
      auto_refresh_expiring_token env (some t) =
        (false, some (disable_token t))) ∧
    (∀ exp r e2, t.expiry_time = some exp → ¬ 24 < (exp - env.now) / 3600 →
      strTruthy t.st = true → env.st_result = some r →
      r.exp = some e2 → e2 < env.now →
      auto_refresh_expiring_token env (some t) =
        (false,
          some (disable_token (update_token_model t r t.st none env.test_valid)))) ∧
    (∀ exp r e2, t.expiry_time = some exp → ¬ 24 < (exp - env.now) / 3600 →
      strTruthy t.st = true → env.st_result = some r →
      r.exp = some e2 → ¬ e2 < env.now →
      auto_refresh_expiring_token env (some t) =
        (true, some (update_token_model t r t.st none env.test_valid))) := by
  refine ⟨?_, ?_, ?_, ?_, ?_, ?_, ?_⟩
  · intro hnone
    simp only [auto_refresh_expiring_token, hnone]
  · intro exp hexp h24
    simp only [auto_refresh_expiring_token, hexp, if_pos h24]
  · intro exp hexp h24 hst r hr
    simp only [auto_refresh_expiring_token, hexp, if_neg h24, hst, if_true, hr]
    split
    · exact ⟨_, rfl, update_token_model_token t r t.st none env.test_valid⟩
    · exact ⟨_, rfl, update_token_model_token t r t.st none env.test_valid⟩
  · intro exp hexp h24 hstfail hrt rr hrr
    have hstnone : (if strTruthy t.st then
        (match env.st_result with
          | some r => some (r, t.st, (none : Option String))
          | none => none)
        else none) = none := by
      rcases hstfail with h | h
      · rw [h]
        rfl
      · rw [h]
        split <;> rfl
    simp only [auto_refresh_expiring_token, hexp, if_neg h24, hstnone, hrt,
      if_true, hrr]
    split
    · exact ⟨_, rfl, update_token_model_token t rr.newAT none rr.refresh_token
        env.test_valid⟩
    · exact ⟨_, rfl, update_token_model_token t rr.newAT none rr.refresh_token
        env.test_valid⟩
  · intro exp hexp h24 hstfail hrtfail
    have hstnone : (if strTruthy t.st then
        (match env.st_result with
          | some r => some (r, t.st, (none : Option String))
          | none => none)
        else none) = none := by
      rcases hstfail with h | h
      · rw [h]
        rfl
      · rw [h]
        split <;> rfl
    have hrtnone : (if strTruthy t.rt then
        (match env.rt_result with
          | some rr => some (rr.newAT, (none : Option String), rr.refresh_token)
          | none => none)
        else none) = none := by
      rcases hrtfail with h | h
      · rw [h]
        rfl
      · rw [h]
        split <;> rfl
    simp only [auto_refresh_expiring_token, hexp, if_neg h24, hstnone, hrtnone]
  · intro exp r e2 hexp h24 hst hr hre2 hlt
    have hexp2 : (update_token_model t r t.st none env.test_valid).expiry_time =
        some e2 := by
      rw [update_token_model_expiry, hre2]
    have hneg : ((e2 - env.now) / 3600 : ℚ) < 0 :=
      div_neg_of_neg_of_pos (by linarith) (by norm_num)
    simp only [auto_refresh_expiring_token, hexp, if_neg h24, hst, if_true, hr,
      hexp2, if_pos hneg]
  · intro exp r e2 hexp h24 hst hr hre2 hge
    have hexp2 : (update_token_model t r t.st none env.test_valid).expiry_time =
        some e2 := by
      rw [update_token_model_expiry, hre2]
    have hnonneg : ¬ ((e2 - env.now) / 3600 : ℚ) < 0 := by
      have : (0 : ℚ) ≤ (e2 - env.now) / 3600 :=
        div_nonneg (by linarith) (by norm_num)
      linarith
    simp only [auto_refresh_expiring_token, hexp, if_neg h24, hst, if_true, hr,
      hexp2, if_neg hnonneg]

/-- C3 witness token: expired long ago, with a session credential present and
no refresh credential. -/
def tokC3 : Token :=
  { id := 1, token := "at-old", email := "a@b.c", st := some "sess", rt := none,
    client_id := none, proxy_url := none, expiry_time := some 10,
    is_active := true, sora2_supported := false, sora2_remaining_count := 0,
    sora2_cooldown_until := none, consecutive_error_count := 0 }

/-- C3 witness environment: both exchanges fail. -/
def envC3 : RefreshEnv :=
  { now := 1000, st_result := none, rt_result := none, test_valid := false }

/-- Witness for C3: with both exchange paths failing the credential is
disabled and the function returns failure. -/
theorem C3_witness :
    auto_refresh_expiring_token envC3 (some tokC3) =
      (false, some (disable_token tokC3)) :=
  (C3_auto_refresh envC3 tokC3).2.2.2.2.1 10 rfl
    (by norm_num [envC3, tokC3]) (Or.inr rfl) (Or.inl rfl)

/-! ## Registration (token_manager.py, `add_token`, normal mode) -/

/-- Outcome of the `get_user_info` call during registration: the identity
fields of the response, or any failure (all caught by `add_token`). -/
inductive UserInfoRes where
  | ok (email : Option String) (name : Option String) (username : Option String)
  | err
deriving DecidableEq, Repr

/-- Outcome of `get_subscription_info`: the parsed fields, the distinguished
token-expired error (raised when the response carries the `token_expired`
code), or any other failure. -/
inductive SubRes where
  | ok (plan_type plan_title subscription_end : String)
  | tokenExpired
  | err
deriving DecidableEq, Repr

/-- Outcome of `get_sora2_invite_code`: the parsed fields, the distinguished
unsupported-country error, or any other failure. -/
inductive InviteRes where
  | ok (supported : Bool) (invite_code : Option String)
      (redeemed_count total_count : Int)
  | regionUnsupported
  | err
deriving DecidableEq, Repr

/-- Parsed result of `get_sora2_remaining_count` (which never raises on a
non-200, it returns a failure flag). -/
structure RemainFetch where
  success : Bool
  remaining_count : Int
  access_resets_in_seconds : Int
deriving DecidableEq, Repr

/-- The two error classes that abort registration. -/
inductive AddAbort where
  | tokenExpired
  | regionUnsupported
deriving DecidableEq, Repr

/-- The fields of the `Token` row that `add_token` computes from the remote
calls (the rest of the row is plumbing of the inputs). -/
structure NewTokenRecord where
  email : String
  name : String
  plan_type : Option String
  plan_title : Option String
  subscription_end : Option String
  sora2_supported : Option Bool
  sora2_invite_code : Option String
  sora2_redeemed_count : Int
  sora2_total_count : Int
  sora2_remaining_count : Int
  is_active : Bool
deriving DecidableEq, Repr

/-- Python `email.split("@")[0] if email else ""`. -/
def emailLocalPart (email : String) : String :=
  if email = "" then "" else (email.splitOn "@").headD ""

/-- `TokenManager.add_token` in normal mode for a new token with a decodable
JWT: fetch user info (all failures fall back to the JWT email), subscription
info (re-raising only the token-expired error), Sora2 invite info (re-raising
only the unsupported-country error) with the remaining count when supported
(failures keep 0), and run the username check/set block whose failures are
all caught and which sets no token field; then build the active token row.
The raw `subscription_end` string stands for its parsed datetime. -/
def add_token_normal (jwt_email : Option String) (user : UserInfoRes)
    (sub : SubRes) (invite : InviteRes) (remain : Option RemainFetch)
    (_username_flow_raises : Bool) : Except AddAbort NewTokenRecord :=
  let email : String :=
    match user with
    | .ok e _ _ => e.getD (jwt_email.getD "")
    | .err => jwt_email.getD ""
  let name : String :=
    match user with
    | .ok _ n _ => n.getD ""
    | .err => emailLocalPart email
  match sub with
  | .tokenExpired => .error .tokenExpired
  | sub1 =>
    let plan_type : Option String :=
      match sub1 with
      | .ok pt _ _ => some pt
      | _ => none
    let plan_title : Option String :=
      match sub1 with
      | .ok _ ptt _ => some ptt
      | _ => none
    let subscription_end : Option String :=
      match sub1 with
      | .ok _ _ se => if se = "" then none else some se
      | _ => none
    match invite with
    | .regionUnsupported => .error .regionUnsupported
    | invite1 =>
      let sora2_supported : Option Bool :=
        match invite1 with
        | .ok s _ _ _ => some s
        | _ => none
      let sora2_invite_code : Option String :=
        match invite1 with
        | .ok _ ic _ _ => ic
        | _ => none
      let sora2_redeemed_count : Int :=
        match invite1 with
        | .ok _ _ rc _ => rc
        | _ => 0
      let sora2_total_count : Int :=
        match invite1 with
        | .ok _ _ _ tc => tc
        | _ => 0
      let sora2_remaining_count : Int :=
        match invite1 with
        | .ok s _ _ _ =>
          if s then
            match remain with
            | some rf => if rf.success then rf.remaining_count else 0
            | none => 0
          else 0
        | _ => 0
      .ok { email := email, name := name, plan_type := plan_type,
            plan_title := plan_title, subscription_end := subscription_end,
            sora2_supported := sora2_supported,
            sora2_invite_code := sora2_invite_code,
            sora2_redeemed_count := sora2_redeemed_count,
            sora2_total_count := sora2_total_count,
            sora2_remaining_count := sora2_remaining_count,
            is_active := true }

/-- Claim C5: during normal-mode registration exactly two remote conditions
abort: the token-expired signal from the subscription call and the
unsupported-country signal from the invite call; every other remote failure
(user info, subscription, invite, remaining count, the whole username
check/set block) is caught and registration still completes with an active
token row. -/
theorem C5_add_token_error_policy (jwt_email : Option String)
    (user : UserInfoRes) (sub : SubRes) (invite : InviteRes)
    (remain : Option RemainFetch) (u1 u2 : Bool) :
    (add_token_normal jwt_email user sub invite remain u1 =
        .error .tokenExpired ↔ sub = .tokenExpired) ∧
    (add_token_normal jwt_email user sub invite remain u1 =
        .error .regionUnsupported ↔
      (sub ≠ .tokenExpired ∧ invite = .regionUnsupported)) ∧
    (sub ≠ .tokenExpired → invite ≠ .regionUnsupported →
      ∃ tokrec, add_token_normal jwt_email user sub invite remain u1 =
        .ok tokrec ∧ tokrec.is_active = true) ∧
    (add_token_normal jwt_email user sub invite remain u1 =
      add_token_normal jwt_email user sub invite remain u2) := by
  refine ⟨?_, ?_, ?_, rfl⟩
  · cases sub <;> cases invite <;> simp [add_token_normal]
  · cases sub <;> cases invite <;> simp [add_token_normal]
  · intro hsub hinv
    cases sub with
    | tokenExpired => exact absurd rfl hsub
    | ok pt ptt se =>
        cases invite with
        | regionUnsupported => exact absurd rfl hinv
        | ok s ic rc tc => exact ⟨_, rfl, rfl⟩
        | err => exact ⟨_, rfl, rfl⟩
    | err =>
        cases invite with
        | regionUnsupported => exact absurd rfl hinv
        | ok s ic rc tc => exact ⟨_, rfl, rfl⟩
        | err => exact ⟨_, rfl, rfl⟩

/-- Witness for C5: with every optional remote call failing (user info,
subscription, invite, remaining count) but neither abort condition present,
registration completes with an active row. -/
theorem C5_witness :
    ∃ tokrec, add_token_normal (some "j@x.test") .err .err .err none false =
      .ok tokrec ∧ tokrec.is_active = true :=
  (C5_add_token_error_policy (some "j@x.test") .err .err .err none false
    false).2.2.1 (by decide) (by decide)

/-! ## Success accounting (token_manager.py, `record_success`) -/

/-- `TokenManager.record_success`: always reset the consecutive-error count;
for video usage on a Sora2-supported token, re-query the remaining count
(`remain` is the oracle for that call, none meaning it raised — caught);
on success store it, and when it is at most 1 set the cooldown from the
reset-in-seconds hint only when that hint is positive, then disable the
token. -/
def record_success (now : ℚ) (is_video : Bool) (tok : Option Token)
    (remain : Option RemainFetch) : Option Token :=
  let tok0 := tok.map fun t => { t with consecutive_error_count := 0 }
  if is_video then
    match tok0 with
    | some t =>
      if t.sora2_supported then
        match remain with
        | some info =>
          if info.success then
            let t1 := { t with sora2_remaining_count := info.remaining_count }
            if info.remaining_count ≤ 1 then
              let t2 :=
                if 0 < info.access_resets_in_seconds then
                  { t1 with
                    sora2_cooldown_until :=
                      some (now + (info.access_resets_in_seconds : ℚ)) }
                else t1
              some (disable_token t2)
            else some t1
          else some t
        | none => some t
      else some t
    | none => none
  else tok0

/-- C10 counterexample token: Sora2-supported, active, no cooldown. -/
def tokC10 : Token :=
  { id := 2, token := "at", email := "c@d.e", st := none, rt := none,
    client_id := none, proxy_url := none, expiry_time := none,
    is_active := true, sora2_supported := true, sora2_remaining_count := 5,
    sora2_cooldown_until := none, consecutive_error_count := 4 }

/-- C10 counterexample quota answer: remaining 1 with a zero reset hint. -/
def remC10 : RemainFetch :=
  { success := true, remaining_count := 1, access_resets_in_seconds := 0 }

/-- The token row `record_success` produces in the C10 counterexample. -/
def resC10 : Token :=
  { tokC10 with
    consecutive_error_count := 0, sora2_remaining_count := 1,
    is_active := false }

/-- Claim C10 (counterexample): when the re-queried remaining count is 1 but
the server's reset hint is 0, the credential is disabled yet no cooldown
timestamp is set — the claim, which asks for a cooldown of now plus the hint
whenever remaining is at most 1, fails here. -/
theorem C10_counterexample :
    record_success 100 true (some tokC10) (some remC10) = some resC10 ∧
    resC10.is_active = false ∧
    resC10.consecutive_error_count = 0 ∧
    resC10.sora2_cooldown_until = none ∧
    resC10.sora2_cooldown_until ≠ some ((100 : ℚ) + ((0 : Int) : ℚ)) := by
  refine ⟨by rfl, by rfl, by rfl, by rfl, ?_⟩
  simp [resC10, tokC10]

/-- Claim C10 (amended): `record_success` with video usage resets the
consecutive-error count to zero and re-queries the remaining quota; whenever
the re-queried remaining count is at most 1, the credential is disabled, and
the cooldown timestamp is set to now plus the server's reset-in-seconds hint
precisely when that hint is positive (otherwise it is left unchanged). -/
theorem C10_record_success_amended (now : ℚ) (t : Token) (rf : RemainFetch)
    (hsup : t.sora2_supported = true) (hsucc : rf.success = true)
    (hrem : rf.remaining_count ≤ 1) :
    ∃ t2, record_success now true (some t) (some rf) = some t2 ∧
      t2.consecutive_error_count = 0 ∧
      t2.is_active = false ∧
      t2.sora2_remaining_count = rf.remaining_count ∧
      t2.sora2_cooldown_until =
        (if 0 < rf.access_resets_in_seconds then
          some (now + (rf.access_resets_in_seconds : ℚ))
        else t.sora2_cooldown_until) := by
  by_cases hreset : 0 < rf.access_resets_in_seconds
  · refine ⟨disable_token
      { t with
        consecutive_error_count := 0,
        sora2_remaining_count := rf.remaining_count,
        sora2_cooldown_until := some (now + (rf.access_resets_in_seconds : ℚ)) },
      ?_, by rfl, by rfl, by rfl, ?_⟩
    · simp only [record_success, Option.map_some', hsup, hsucc, if_true,
        if_pos hrem, if_pos hreset]
    · rw [if_pos hreset]
      rfl
  · refine ⟨disable_token
      { t with
        consecutive_error_count := 0,
        sora2_remaining_count := rf.remaining_count },
      ?_, by rfl, by rfl, by rfl, ?_⟩
    · simp only [record_success, Option.map_some', hsup, hsucc, if_true,
        if_pos hrem, if_neg hreset]
    · rw [if_neg hreset]
      rfl

/-- C10 witness quota answer: remaining 1 with a positive reset hint. -/
def remC10pos : RemainFetch :=
  { success := true, remaining_count := 1, access_resets_in_seconds := 3600 }

/-- Witness for C10 (amended): with remaining 1 and a 3600s reset hint the
token is disabled and the cooldown lands at now + 3600. -/
theorem C10_witness :
    ∃ t2, record_success 100 true (some tokC10) (some remC10pos) = some t2 ∧
      t2.is_active = false ∧ t2.consecutive_error_count = 0 ∧
      t2.sora2_cooldown_until = some 3700 := by
  obtain ⟨t2, heq, hcons, hact, hrem2, hcd⟩ :=
    C10_record_success_amended 100 tokC10 remC10pos rfl rfl
      (by norm_num [remC10pos])
  refine ⟨t2, heq, hact, hcons, ?_⟩
  rw [hcd]
  norm_num [remC10pos, tokC10]
